import Mathlib

/-!
Shallow embedding of the AI-TAX repository's core logic:
  * `src/tax_calculator.py` — the `TaxCalculator` class (2024 single-filer
    brackets, standard deductions, input validation, federal tax computation);
  * `src/app.py` — `combine_multiple_tax_documents` and the field-validation
    segment of `extract_tax_data_with_ai`.

Python floats are modelled by `ℚ`; Python dictionaries by structures whose
fields are `Option`-valued (`none` = key absent).  Fallible code returns
`Except`.  In-place mutation of the caller's dictionary is modelled by
returning the final state of the dictionary alongside the result.
-/

namespace AITax

/-- Python's `str.lower()` (ASCII case range), modelled character-wise. -/
def pyLower (s : String) : String := ⟨s.data.map Char.toLower⟩

/-- Python's `str.strip()`: remove leading and trailing whitespace. -/
def pyStrip (s : String) : String :=
  ⟨((s.data.dropWhile Char.isWhitespace).reverse.dropWhile Char.isWhitespace).reverse⟩

/-- Python's built-in `round` to an integer: round half to even
(banker's rounding).  `Rat.floor` is the executable floor on `ℚ`, equal to
`Int.floor`. -/
def roundHalfEven (x : ℚ) : ℤ :=
  if x - x.floor < 1/2 then x.floor
  else if 1/2 < x - x.floor then x.floor + 1
  else if x.floor % 2 = 0 then x.floor else x.floor + 1

/-- Python's `round(x, 2)`. -/
def round2 (x : ℚ) : ℚ := (roundHalfEven (100 * x) : ℚ) / 100

/-- `self.tax_brackets_single` (src/tax_calculator.py lines 10-18):
`(bracket_limit, rate)` pairs; `none` models `float(inf)`. -/
def tax_brackets_single : List (Option ℚ × ℚ) :=
  [(some 11000, 10/100),
   (some 44725, 12/100),
   (some 95375, 22/100),
   (some 182050, 24/100),
   (some 231250, 32/100),
   (some 578125, 35/100),
   (none, 37/100)]

/-- `min(taxable_income, bracket_limit)` with `bracket_limit` possibly
`float(inf)`. -/
def bracketMin (ti : ℚ) : Option ℚ → ℚ
  | none => ti
  | some l => min ti l

/-- The bracket walk of `calculate_federal_tax`
(src/tax_calculator.py lines 149-166): for each `(bracket_limit, rate)` pair,
stop if `taxable_income <= previous_bracket`, otherwise accumulate
`(min(taxable_income, bracket_limit) - previous_bracket) * rate` and stop once
`taxable_income <= bracket_limit`. -/
def bracketLoop (ti : ℚ) : List (Option ℚ × ℚ) → ℚ → ℚ
  | [], _ => 0
  | (bracket_limit, rate) :: rest, previous_bracket =>
    if ti ≤ previous_bracket then 0
    else
      let bracket_tax := (bracketMin ti bracket_limit - previous_bracket) * rate
      match bracket_limit with
      | none => bracket_tax
      | some l => if ti ≤ l then bracket_tax else bracket_tax + bracketLoop ti rest l

/-- `TaxCalculator.calculate_federal_tax` (src/tax_calculator.py lines
136-171).  Non-positive income returns `0.0` at once.  The
`raise ValueError` for taxable income above `$100,000,000` (line 147) is
caught by the function's own `except Exception` clause (lines 169-171), which
returns `0.0`; that observable behaviour is embedded here.  The result is
`round(total_tax, 2)`. -/
def calculate_federal_tax (taxable_income : ℚ) : ℚ :=
  if taxable_income ≤ 0 then 0
  else if 100000000 < taxable_income then 0
  else round2 (bracketLoop taxable_income tax_brackets_single 0)

/-- `self.standard_deductions` (src/tax_calculator.py lines 21-26). -/
def standard_deductions : List (String × ℚ) :=
  [("single", 14600),
   ("married_filing_jointly", 29200),
   ("married_filing_separately", 14600),
   ("head_of_household", 21900)]

/-- Dictionary lookup in `standard_deductions`. -/
def sdLookup (filing_status : String) : Option ℚ :=
  (standard_deductions.find? (fun p => p.1 == filing_status)).map (fun p => p.2)

/-- A value stored under a monetary key of a Python dictionary, as seen by
`float(value)`: either a value that `float` coerces to the rational `q`
(numbers, booleans, numeric strings), or a value on which `float` raises
`ValueError`/`TypeError`. -/
inductive MoneyVal where
  | num (q : ℚ)
  | nonnum
deriving DecidableEq

/-- The `tax_data` dictionary consumed by `TaxCalculator`.  `none` models an
absent key; `has_other_keys` records whether the dictionary carries further
keys (this affects only Python's `not tax_data` emptiness test). -/
structure TaxData where
  wages : Option MoneyVal := none
  interest_income : Option MoneyVal := none
  other_income : Option MoneyVal := none
  federal_withholding : Option MoneyVal := none
  filing_status : Option String := none
  has_other_keys : Bool := false
deriving DecidableEq

/-- Python's `not tax_data` for a dictionary: true iff it has no keys. -/
def TaxData.isEmptyDict (d : TaxData) : Bool :=
  d.wages.isNone && d.interest_income.isNone && d.other_income.isNone &&
  d.federal_withholding.isNone && d.filing_status.isNone && !d.has_other_keys

/-- One iteration of the monetary-field loop of `validate_tax_data`
(src/tax_calculator.py lines 38-49).  A missing key reads as `0` and is left
absent; a negative value is set to `0`; the `raise ValueError` for values
above `$50,000,000` (line 46) is caught by the same `try`'s
`except (ValueError, TypeError)` clause (lines 47-49), which sets the field
to `0`; a non-coercible value is likewise set to `0`. -/
def validateMoneyField : Option MoneyVal → Option MoneyVal
  | none => none
  | some (.num q) =>
      if q < 0 then some (.num 0)
      else if 50000000 < q then some (.num 0)
      else some (.num q)
  | some .nonnum => some (.num 0)

/-- `TaxCalculator.validate_tax_data` (src/tax_calculator.py lines 28-57).
Raises (`.error`) only for an empty dictionary; otherwise returns the
in-place-mutated dictionary: monetary fields normalised by
`validateMoneyField`, and `filing_status` overwritten with `"single"` when
its lowercased value is not a key of `standard_deductions`. -/
def validate_tax_data (d : TaxData) : Except String TaxData :=
  if d.isEmptyDict then .error "Tax data cannot be empty"
  else
    let d1 : TaxData :=
      { d with wages := validateMoneyField d.wages,
               interest_income := validateMoneyField d.interest_income,
               other_income := validateMoneyField d.other_income,
               federal_withholding := validateMoneyField d.federal_withholding }
    let fs := pyLower (d1.filing_status.getD "single")
    if (sdLookup fs).isSome then .ok d1
    else .ok { d1 with filing_status := some "single" }

/-- The result dictionary of `calculate_taxes`. -/
structure TaxResult where
  error : Option String
  total_income : ℚ
  standard_deduction : ℚ
  taxable_income : ℚ
  federal_tax : ℚ
  federal_withholding : ℚ
  refund_or_owed : ℚ
  is_refund : Bool
  filing_status : String
  calculation_success : Bool
deriving DecidableEq

/-- The error dictionary built by the `except` handlers of `calculate_taxes`
(src/tax_calculator.py lines 107-134). -/
def errorResult (msg : String) : TaxResult :=
  { error := some msg, total_income := 0, standard_deduction := 14600,
    taxable_income := 0, federal_tax := 0, federal_withholding := 0,
    refund_or_owed := 0, is_refund := false, filing_status := "single",
    calculation_success := false }

/-- `float(tax_data.get(field, 0))` on a field of the validated dictionary:
a missing key reads as `0`; `float` raises (`none`) on a non-coercible
value. -/
def floatOf : Option MoneyVal → Option ℚ
  | none => some 0
  | some (.num q) => some q
  | some .nonnum => none

/-- `TaxCalculator.calculate_taxes` (src/tax_calculator.py lines 59-134).
Returns the result dictionary together with the final state of the caller's
`tax_data` dictionary (which the function mutates in place through
`validate_tax_data`).  A `ValueError` from validation is caught and turned
into `errorResult`; a failing `float` coercion after validation (unreachable)
would be caught by the outer `except Exception`. -/
def calculate_taxes (d : TaxData) : TaxResult × TaxData :=
  match validate_tax_data d with
  | .error msg => (errorResult ("Tax calculation validation error: " ++ msg), d)
  | .ok v =>
    match floatOf v.wages, floatOf v.interest_income, floatOf v.other_income,
          floatOf v.federal_withholding with
    | some wages, some interest_income, some other_income, some federal_withholding =>
      let filing_status := pyLower (v.filing_status.getD "single")
      let total_income := wages + interest_income + other_income
      let total_income := if total_income < 0 then 0 else total_income
      let standard_deduction := (sdLookup filing_status).getD 14600
      let taxable_income := max 0 (total_income - standard_deduction)
      let federal_tax := calculate_federal_tax taxable_income
      let refund_or_owed := federal_withholding - federal_tax
      ({ error := none,
         total_income := round2 total_income,
         standard_deduction := round2 standard_deduction,
         taxable_income := round2 taxable_income,
         federal_tax := round2 federal_tax,
         federal_withholding := round2 federal_withholding,
         refund_or_owed := round2 refund_or_owed,
         is_refund := decide (0 < refund_or_owed),
         filing_status := filing_status,
         calculation_success := true }, v)
    | _, _, _, _ => (errorResult "Tax calculation error: float() argument", v)

/-- A per-document tax record (a Python dict) as consumed and produced by
`combine_multiple_tax_documents` (src/app.py lines 305-428).  `none` models an
absent key; the combined output is a dict of the same shape with the combined
keys set. -/
structure Rec where
  taxpayer_name : Option String := none
  ssn : Option String := none
  address : Option String := none
  city : Option String := none
  state : Option String := none
  zip_code : Option String := none
  filing_status : Option String := none
  wages : Option MoneyVal := none
  interest_income : Option MoneyVal := none
  dividend_income : Option MoneyVal := none
  other_income : Option MoneyVal := none
  federal_withholding : Option MoneyVal := none
  state_withholding : Option MoneyVal := none
  social_security_wages : Option MoneyVal := none
  medicare_wages : Option MoneyVal := none
  document_type : Option String := none
  source_filename : Option String := none
  classification_confidence : Option ℚ := none
  extraction_confidence : Option ℚ := none
  document_quality : Option String := none
  validation_flags : Option (List String) := none
  requires_review : Option Bool := none
  payer_name : Option String := none
  employer_ein : Option String := none
  source_files : Option (List String) := none
  documents_processed : Option Nat := none
deriving DecidableEq

/-- The primary-taxpayer test of the loop at src/app.py lines 320-323:
`data.get('taxpayer_name')` is truthy and its stripped length exceeds the
stripped length of the base (first) record's name.  The loop `break`s at the
first record satisfying this, so the comparison is always against the first
record. -/
def isPrimaryCandidate (base r : Rec) : Bool :=
  (r.taxpayer_name.getD "" != "") &&
    (pyStrip (base.taxpayer_name.getD "")).length < (pyStrip (r.taxpayer_name.getD "")).length

/-- `total += float(value) if value else 0` with
`except (ValueError, TypeError): continue` (src/app.py lines 343-352): a
missing key, a falsy value and a non-coercible value all contribute 0. -/
def moneyContrib : Option MoneyVal → ℚ
  | none => 0
  | some (.num q) => q
  | some .nonnum => 0

/-- Sum of one monetary field over all records (src/app.py lines 343-352). -/
def sumMoney (f : Rec → Option MoneyVal) (l : List Rec) : ℚ :=
  l.foldl (fun total r => total + moneyContrib (f r)) 0

/-- First-seen-order collection of `document_type` values, defaulting to
`"Other"` (src/app.py lines 354-359). -/
def docTypes (l : List Rec) : List String :=
  l.foldl (fun acc r =>
    let t := r.document_type.getD "Other"
    if t ∈ acc then acc else acc ++ [t]) []

/-- First-seen-order collection of `source_filename` values, defaulting to
`"Unknown"` (src/app.py lines 366-371). -/
def sourceFiles (l : List Rec) : List String :=
  l.foldl (fun acc r =>
    let f := r.source_filename.getD "Unknown"
    if f ∈ acc then acc else acc ++ [f]) []

/-- `max((data.get(field, 0) for data in all_tax_data), default=0.8)`
(src/app.py lines 377-384): Python's `max` of the generator; the `default`
applies only when the iterable is empty. -/
def maxConf (f : Rec → Option ℚ) (l : List Rec) : ℚ :=
  match l.map (fun r => (f r).getD 0) with
  | [] => 8/10
  | x :: xs => xs.foldl max x

/-- `qualities = ['high', 'medium', 'low']` (src/app.py line 387). -/
def qualities : List String := ["high", "medium", "low"]

/-- `qualities.index(q)`, total on the members of `qualities` (it is only
queried after a membership guard). -/
def qualityIndex : String → Nat
  | "high" => 0
  | "medium" => 1
  | "low" => 2
  | _ => 3

/-- The best-quality fold of src/app.py lines 388-393. -/
def bestQuality (l : List Rec) : String :=
  l.foldl (fun best r =>
    let q := r.document_quality.getD "medium"
    if q ∈ qualities ∧ qualityIndex q < qualityIndex best then q else best) "low"

/-- Concatenation of all `validation_flags` lists (src/app.py lines 396-400). -/
def allFlags (l : List Rec) : List String :=
  l.foldl (fun acc r => acc ++ r.validation_flags.getD []) []

/-- `list(set(xs))` (src/app.py line 401): duplicates removed; Python's
iteration order over a `set` is unspecified, modelled as first-seen order. -/
def dedupFirstSeen (xs : List String) : List String :=
  xs.foldl (fun acc x => if x ∈ acc then acc else acc ++ [x]) []

/-- The payer/EIN collection loop of src/app.py lines 409-420: stripped,
non-empty values in first-seen order without duplicates. -/
def collectNonEmpty (f : Rec → Option String) (l : List Rec) : List String :=
  l.foldl (fun acc r =>
    let s := pyStrip ((f r).getD "")
    if s ≠ "" ∧ s ∉ acc then acc ++ [s] else acc) []

/-- `combine_multiple_tax_documents` (src/app.py lines 305-428).  An empty
batch raises (`NoDocuments`); a single record is returned unchanged; two or
more records are merged starting from a copy of the first record. -/
def combine_multiple_tax_documents : List Rec → Except String Rec
  | [] => .error "No tax data to combine"
  | [r] => .ok r
  | r0 :: r1 :: rest =>
    let l := r0 :: r1 :: rest
    let combined := r0
    let primary_taxpayer := l.find? (isPrimaryCandidate r0)
    let combined :=
      match primary_taxpayer with
      | some p =>
        { combined with
          taxpayer_name := some (p.taxpayer_name.getD ""),
          ssn := some (p.ssn.getD ""),
          address := some (p.address.getD ""),
          city := some (p.city.getD ""),
          state := some (p.state.getD ""),
          zip_code := some (p.zip_code.getD ""),
          filing_status := some (p.filing_status.getD "single") }
      | none => combined
    .ok { combined with
          wages := some (.num (sumMoney (fun r => r.wages) l)),
          interest_income := some (.num (sumMoney (fun r => r.interest_income) l)),
          dividend_income := some (.num (sumMoney (fun r => r.dividend_income) l)),
          other_income := some (.num (sumMoney (fun r => r.other_income) l)),
          federal_withholding := some (.num (sumMoney (fun r => r.federal_withholding) l)),
          state_withholding := some (.num (sumMoney (fun r => r.state_withholding) l)),
          social_security_wages := some (.num (sumMoney (fun r => r.social_security_wages) l)),
          medicare_wages := some (.num (sumMoney (fun r => r.medicare_wages) l)),
          document_type := some (match docTypes l with
            | [t] => t
            | _ => "Multiple"),
          source_files := some (sourceFiles l),
          documents_processed := some l.length,
          classification_confidence := some (maxConf (fun r => r.classification_confidence) l),
          extraction_confidence := some (maxConf (fun r => r.extraction_confidence) l),
          document_quality := some (bestQuality l),
          validation_flags := some (dedupFirstSeen (allFlags l)),
          requires_review := some (l.any (fun r => r.requires_review.getD false)),
          payer_name := some (String.intercalate "; " (collectNonEmpty (fun r => r.payer_name) l)),
          employer_ein := some (String.intercalate "; " (collectNonEmpty (fun r => r.employer_ein) l)) }

/-- The fields of a parsed AI-extraction response relevant to its monetary
validation (src/app.py lines 596-643): the eight monetary fields plus
`validation_flags` and `requires_review`.  A monetary value is a `MoneyVal`:
`num q` for values `float` coerces to `q` after the currency-symbol and
thousands-separator stripping of line 631, `nonnum` for values on which the
coercion raises. -/
structure EXRec where
  wages : Option MoneyVal := none
  interest_income : Option MoneyVal := none
  dividend_income : Option MoneyVal := none
  other_income : Option MoneyVal := none
  federal_withholding : Option MoneyVal := none
  state_withholding : Option MoneyVal := none
  social_security_wages : Option MoneyVal := none
  medicare_wages : Option MoneyVal := none
  validation_flags : Option (List String) := none
  requires_review : Option Bool := none
deriving DecidableEq

/-- The same record after the validation segment: monetary fields are floats,
`validation_flags` a list, `requires_review` a boolean. -/
structure NormalizedEXRec where
  wages : ℚ
  interest_income : ℚ
  dividend_income : ℚ
  other_income : ℚ
  federal_withholding : ℚ
  state_withholding : ℚ
  social_security_wages : ℚ
  medicare_wages : ℚ
  validation_flags : List String
  requires_review : Bool
deriving DecidableEq

/-- One monetary field through lines 608-643 of src/app.py: a missing field is
defaulted to `0.0` (line 615); a coercion failure becomes `0.0` (line 643); a
negative value is set to `0.0` (line 637); a value above `$10,000,000` is kept
unchanged — the over-limit branch (lines 638-639) only logs a warning. -/
def normalizeMoney : Option MoneyVal → ℚ
  | none => 0
  | some (.num q) => if q < 0 then 0 else q
  | some .nonnum => 0

/-- The field-validation segment of `extract_tax_data_with_ai`
(src/app.py lines 608-643) restricted to the monetary fields,
`validation_flags` and `requires_review`.  The string-field normalisation of
lines 645-690 reads and writes none of these fields. -/
def normalize_extracted_data (d : EXRec) : NormalizedEXRec :=
  { wages := normalizeMoney d.wages,
    interest_income := normalizeMoney d.interest_income,
    dividend_income := normalizeMoney d.dividend_income,
    other_income := normalizeMoney d.other_income,
    federal_withholding := normalizeMoney d.federal_withholding,
    state_withholding := normalizeMoney d.state_withholding,
    social_security_wages := normalizeMoney d.social_security_wages,
    medicare_wages := normalizeMoney d.medicare_wages,
    validation_flags := d.validation_flags.getD [],
    requires_review := d.requires_review.getD false }

/-- Specification predicate: the monetary field is absent, or holds a number
in `[0, 50000000]` — exactly the values `validate_tax_data` leaves unchanged. -/
def MoneyFieldOK : Option MoneyVal → Prop
  | none => True
  | some (.num q) => 0 ≤ q ∧ q ≤ 50000000
  | some .nonnum => False

/-- Specification predicate: `r`'s `taxpayer_name` is truthy and its stripped
length strictly exceeds that of `base`'s (the propositional counterpart of
`isPrimaryCandidate`). -/
def LongerThanFirst (base r : Rec) : Prop :=
  r.taxpayer_name.getD "" ≠ "" ∧
    (pyStrip (base.taxpayer_name.getD "")).length < (pyStrip (r.taxpayer_name.getD "")).length

instance (base r : Rec) : Decidable (LongerThanFirst base r) := by
  unfold LongerThanFirst; infer_instance

/-- The seven identity fields of a record, as a tuple. -/
def identityFields (r : Rec) :
    Option String × Option String × Option String × Option String ×
    Option String × Option String × Option String :=
  (r.taxpayer_name, r.ssn, r.address, r.city, r.state, r.zip_code, r.filing_status)

/-- Concrete three-record batch for the identity-field selection claim:
names of stripped lengths 1, 2, 3. -/
def recNameA : Rec := { taxpayer_name := some "a", ssn := some "sa" }

/-- Second record of the batch: name longer than the first record's. -/
def recNameBB : Rec := { taxpayer_name := some "bb", ssn := some "sb" }

/-- Third record of the batch: the longest name of the whole batch. -/
def recNameCCC : Rec := { taxpayer_name := some "ccc", ssn := some "sc" }

/-- A record with no keys at all (an empty dict). -/
def blankRec : Rec := {}

/-- A record reporting only a classification confidence. -/
def ccOnlyRec : Rec := { classification_confidence := some (9/10) }

/-- Tax data whose wages exceed the $50M sanity bound. -/
def wages60M : TaxData := { wages := some (.num 60000000) }

/-- Tax data passing per-field validation whose total income pushes taxable
income beyond the $100M sanity bound. -/
def income150M : TaxData :=
  { wages := some (.num 50000000), interest_income := some (.num 50000000),
    other_income := some (.num 50000000) }

/-- Tax data with a negative wages entry. -/
def negWages : TaxData := { wages := some (.num (-5)) }

/-- Well-formed tax data: valid monetary fields and filing status. -/
def validTaxInput : TaxData :=
  { wages := some (.num 1000), federal_withholding := some (.num 50),
    filing_status := some "single" }

/-- A single-record batch member for the singleton-combine claim. -/
def soloRec : Rec :=
  { taxpayer_name := some "solo", wages := some (.num 123), document_type := some "W-2" }

/-- An extraction record with every monetary field above $10M, empty flags,
review off. -/
def bigWagesRec : EXRec :=
  { wages := some (.num 20000000), interest_income := some (.num 11000000),
    dividend_income := some (.num 12000000), other_income := some (.num 13000000),
    federal_withholding := some (.num 14000000), state_withholding := some (.num 15000000),
    social_security_wages := some (.num 16000000), medicare_wages := some (.num 17000000),
    validation_flags := some [], requires_review := some false }

/-- An extraction record with every monetary field at $15M and no other keys. -/
def allLargeRec : EXRec :=
  { wages := some (.num 15000000), interest_income := some (.num 15000000),
    dividend_income := some (.num 15000000), other_income := some (.num 15000000),
    federal_withholding := some (.num 15000000), state_withholding := some (.num 15000000),
    social_security_wages := some (.num 15000000), medicare_wages := some (.num 15000000) }

/-! ### Helper lemmas: rounding -/

lemma ratFloor_eq (x : ℚ) : x.floor = ⌊x⌋ :=
  (Rat.floor_def' x).trans Rat.floor_def.symm

lemma roundHalfEven_def (x : ℚ) :
    roundHalfEven x =
      if x - ⌊x⌋ < 1/2 then ⌊x⌋
      else if 1/2 < x - ⌊x⌋ then ⌊x⌋ + 1
      else if ⌊x⌋ % 2 = 0 then ⌊x⌋ else ⌊x⌋ + 1 := by
  unfold roundHalfEven
  rw [ratFloor_eq]

lemma floor_le_roundHalfEven (x : ℚ) : ⌊x⌋ ≤ roundHalfEven x := by
  rw [roundHalfEven_def]
  split_ifs <;> omega

lemma roundHalfEven_le_floor_add_one (x : ℚ) : roundHalfEven x ≤ ⌊x⌋ + 1 := by
  rw [roundHalfEven_def]
  split_ifs <;> omega

lemma roundHalfEven_le (x : ℚ) : (roundHalfEven x : ℚ) ≤ x + 1/2 := by
  have hfl := Int.floor_le x
  rw [roundHalfEven_def]
  split_ifs with h1 h2 h3 <;> push_cast <;> linarith

lemma roundHalfEven_mono {x y : ℚ} (h : x ≤ y) : roundHalfEven x ≤ roundHalfEven y := by
  have hf : ⌊x⌋ ≤ ⌊y⌋ := Int.floor_mono h
  rcases lt_or_eq_of_le hf with hlt | heq
  · calc roundHalfEven x ≤ ⌊x⌋ + 1 := roundHalfEven_le_floor_add_one x
      _ ≤ ⌊y⌋ := by omega
      _ ≤ roundHalfEven y := floor_le_roundHalfEven y
  · rw [roundHalfEven_def, roundHalfEven_def, ← heq]
    split_ifs <;> first | omega | (exfalso; linarith)

lemma roundHalfEven_nonneg {x : ℚ} (hx : 0 ≤ x) : 0 ≤ roundHalfEven x := by
  have h0 : 0 ≤ ⌊x⌋ := Int.floor_nonneg.mpr hx
  rw [roundHalfEven_def]
  split_ifs <;> omega

lemma roundHalfEven_of_lt_half {x : ℚ} (hx : 0 ≤ x) (hh : x < 1/2) : roundHalfEven x = 0 := by
  have h0 : ⌊x⌋ = 0 := Int.floor_eq_zero_iff.mpr ⟨hx, by linarith⟩
  rw [roundHalfEven_def, h0]
  rw [if_pos]
  push_cast
  linarith

lemma round2_nonneg {x : ℚ} (hx : 0 ≤ x) : 0 ≤ round2 x := by
  unfold round2
  have h := roundHalfEven_nonneg (x := 100 * x) (by linarith)
  have h2 : (0 : ℚ) ≤ (roundHalfEven (100 * x) : ℚ) := by exact_mod_cast h
  linarith

lemma round2_mono {x y : ℚ} (h : x ≤ y) : round2 x ≤ round2 y := by
  unfold round2
  have h2 := roundHalfEven_mono (x := 100 * x) (y := 100 * y) (by linarith)
  have h3 : ((roundHalfEven (100 * x) : ℤ) : ℚ) ≤ (roundHalfEven (100 * y) : ℚ) := by
    exact_mod_cast h2
  linarith

lemma round2_le (x : ℚ) : round2 x ≤ x + 1/200 := by
  unfold round2
  have h := roundHalfEven_le (100 * x)
  linarith

lemma round2_of_small {x : ℚ} (hx : 0 ≤ x) (hh : 100 * x < 1/2) : round2 x = 0 := by
  unfold round2
  rw [roundHalfEven_of_lt_half (by linarith) hh]
  norm_num

/-! ### Helper lemmas: the bracket walk -/

/-- A well-formed tail of a bracket table, starting after `p`, with all rates
in `[0, R]` and strictly increasing finite limits. -/
inductive BracketChain (R : ℚ) : ℚ → List (Option ℚ × ℚ) → Prop where
  | nil (p : ℚ) : BracketChain R p []
  | fin {p l r : ℚ} {bs : List (Option ℚ × ℚ)} (hpl : p < l) (hr0 : 0 ≤ r) (hrR : r ≤ R)
      (h : BracketChain R l bs) : BracketChain R p ((some l, r) :: bs)
  | inf {p r : ℚ} (bs : List (Option ℚ × ℚ)) (hr0 : 0 ≤ r) (hrR : r ≤ R) :
      BracketChain R p ((none, r) :: bs)

lemma bracketChain_single : BracketChain (37/100) 0 tax_brackets_single := by
  unfold tax_brackets_single
  exact .fin (by norm_num) (by norm_num) (by norm_num)
    (.fin (by norm_num) (by norm_num) (by norm_num)
      (.fin (by norm_num) (by norm_num) (by norm_num)
        (.fin (by norm_num) (by norm_num) (by norm_num)
          (.fin (by norm_num) (by norm_num) (by norm_num)
            (.fin (by norm_num) (by norm_num) (by norm_num)
              (.inf [] (by norm_num) (by norm_num)))))))

lemma bracketLoop_nonneg {R p : ℚ} {bs : List (Option ℚ × ℚ)}
    (hbs : BracketChain R p bs) (t : ℚ) : 0 ≤ bracketLoop t bs p := by
  induction hbs with
  | nil p => simp [bracketLoop]
  | fin hpl hr0 hrR h ih =>
    rename_i p l r bs
    simp only [bracketLoop, bracketMin]
    split_ifs with h1 h2
    · exact le_refl 0
    · have hm : p ≤ min t l := le_min (by linarith [not_le.mp h1]) (by linarith)
      exact mul_nonneg (by linarith) hr0
    · have hm : p ≤ min t l := le_min (by linarith [not_le.mp h1]) (by linarith)
      exact add_nonneg (mul_nonneg (by linarith) hr0) ih
  | inf bs hr0 hrR =>
    rename_i p r
    simp only [bracketLoop, bracketMin]
    split_ifs with h1
    · exact le_refl 0
    · exact mul_nonneg (by linarith [not_le.mp h1]) hr0

lemma bracketLoop_mono {R p : ℚ} {bs : List (Option ℚ × ℚ)}
    (hbs : BracketChain R p bs) {a b : ℚ} (hab : a ≤ b) :
    bracketLoop a bs p ≤ bracketLoop b bs p := by
  induction hbs with
  | nil p => simp [bracketLoop]
  | fin hpl hr0 hrR h ih =>
    rename_i p l r bs
    by_cases hap : a ≤ p
    · have h0 : bracketLoop a ((some l, r) :: bs) p = 0 := by
        simp [bracketLoop, hap]
      rw [h0]
      exact bracketLoop_nonneg (.fin hpl hr0 hrR h) b
    · have hbp : ¬ b ≤ p := fun hh => hap (hab.trans hh)
      simp only [bracketLoop, bracketMin, if_neg hap, if_neg hbp]
      by_cases hal : a ≤ l
      · by_cases hbl : b ≤ l
        · rw [if_pos hal, if_pos hbl, min_eq_left hal, min_eq_left hbl]
          exact mul_le_mul_of_nonneg_right (by linarith) hr0
        · rw [if_pos hal, if_neg hbl, min_eq_left hal, min_eq_right (le_of_not_le hbl)]
          have h2 := bracketLoop_nonneg h b
          have h3 : (a - p) * r ≤ (l - p) * r :=
            mul_le_mul_of_nonneg_right (by linarith) hr0
          linarith
      · have hbl : ¬ b ≤ l := fun hh => hal (hab.trans hh)
        rw [if_neg hal, if_neg hbl, min_eq_right (le_of_not_le hal),
          min_eq_right (le_of_not_le hbl)]
        linarith [ih]
  | inf bs hr0 hrR =>
    rename_i p r
    by_cases hap : a ≤ p
    · have h0 : bracketLoop a ((none, r) :: bs) p = 0 := by
        simp [bracketLoop, hap]
      rw [h0]
      exact bracketLoop_nonneg (.inf bs hr0 hrR) b
    · have hbp : ¬ b ≤ p := fun hh => hap (hab.trans hh)
      simp only [bracketLoop, bracketMin, if_neg hap, if_neg hbp]
      exact mul_le_mul_of_nonneg_right (by linarith) hr0

lemma bracketLoop_le {R p : ℚ} {bs : List (Option ℚ × ℚ)}
    (hbs : BracketChain R p bs) (hR : 0 ≤ R) :
    ∀ t, p ≤ t → bracketLoop t bs p ≤ R * (t - p) := by
  induction hbs with
  | nil p =>
    intro t hpt
    simp only [bracketLoop]
    exact mul_nonneg hR (by linarith)
  | fin hpl hr0 hrR h ih =>
    rename_i p l r bs
    intro t hpt
    simp only [bracketLoop, bracketMin]
    split_ifs with h1 h2
    · exact mul_nonneg hR (by linarith)
    · rw [min_eq_left h2]
      calc (t - p) * r ≤ (t - p) * R := mul_le_mul_of_nonneg_left hrR (by linarith)
        _ = R * (t - p) := mul_comm _ _
    · rw [min_eq_right (le_of_not_le h2)]
      have hlt : l ≤ t := le_of_not_le h2
      have h4 := ih t hlt
      have h5 : (l - p) * r ≤ (l - p) * R := mul_le_mul_of_nonneg_left hrR (by linarith)
      nlinarith [h4, h5]
  | inf bs hr0 hrR =>
    rename_i p r
    intro t hpt
    simp only [bracketLoop, bracketMin]
    split_ifs with h1
    · exact mul_nonneg hR (by linarith)
    · calc (t - p) * r ≤ (t - p) * R := mul_le_mul_of_nonneg_left hrR (by linarith)
        _ = R * (t - p) := mul_comm _ _

lemma bracketChain_tail :
    BracketChain (37/100) 11000
      [(some 44725, 12/100), (some 95375, 22/100), (some 182050, 24/100),
       (some 231250, 32/100), (some 578125, 35/100), (none, 37/100)] :=
  .fin (by norm_num) (by norm_num) (by norm_num)
    (.fin (by norm_num) (by norm_num) (by norm_num)
      (.fin (by norm_num) (by norm_num) (by norm_num)
        (.fin (by norm_num) (by norm_num) (by norm_num)
          (.fin (by norm_num) (by norm_num) (by norm_num)
            (.inf [] (by norm_num) (by norm_num))))))

lemma bracketLoop_single_step (t : ℚ) (ht : 0 < t) :
    bracketLoop t tax_brackets_single 0 =
      if t ≤ 11000 then (min t 11000 - 0) * (10/100)
      else (min t 11000 - 0) * (10/100) +
        bracketLoop t
          [(some 44725, 12/100), (some 95375, 22/100), (some 182050, 24/100),
           (some 231250, 32/100), (some 578125, 35/100), (none, 37/100)] 11000 := by
  conv_lhs =>
    rw [tax_brackets_single, bracketLoop]
  rw [if_neg (not_le.mpr ht)]
  rfl

lemma bracketLoop_single_le (t : ℚ) (ht : 0 < t) :
    bracketLoop t tax_brackets_single 0 ≤
      (10/100) * min t 11000 + (37/100) * (t - min t 11000) := by
  rw [bracketLoop_single_step t ht]
  by_cases hle : t ≤ 11000
  · rw [if_pos hle, min_eq_left hle]
    linarith
  · rw [if_neg hle, min_eq_right (le_of_not_le hle)]
    have h1 := bracketLoop_le bracketChain_tail (by norm_num) t (le_of_not_le hle)
    linarith

lemma calculate_federal_tax_nonneg (t : ℚ) : 0 ≤ calculate_federal_tax t := by
  unfold calculate_federal_tax
  split_ifs with h1 h2
  · exact le_refl 0
  · exact le_refl 0
  · exact round2_nonneg (bracketLoop_nonneg bracketChain_single t)

lemma calculate_federal_tax_mono {a b : ℚ} (hab : a ≤ b) (hb : b ≤ 100000000) :
    calculate_federal_tax a ≤ calculate_federal_tax b := by
  by_cases ha0 : a ≤ 0
  · have h1 : calculate_federal_tax a = 0 := by
      unfold calculate_federal_tax
      rw [if_pos ha0]
    rw [h1]
    exact calculate_federal_tax_nonneg b
  · have hb0 : ¬ b ≤ 0 := fun hh => ha0 (hab.trans hh)
    have ha8 : ¬ 100000000 < a := not_lt.mpr (hab.trans hb)
    have hb8 : ¬ 100000000 < b := not_lt.mpr hb
    unfold calculate_federal_tax
    rw [if_neg ha0, if_neg hb0, if_neg ha8, if_neg hb8]
    exact round2_mono (bracketLoop_mono bracketChain_single hab)

lemma calculate_federal_tax_le (t : ℚ) (h0 : 0 ≤ t) (h8 : t ≤ 100000000) :
    calculate_federal_tax t ≤ (37/100) * t := by
  unfold calculate_federal_tax
  split_ifs with h1 h2
  · linarith
  · linarith
  · have ht : 0 < t := not_le.mp h1
    have hkey := bracketLoop_single_le t ht
    by_cases hsmall : t < 1/20
    · have hS0 : 0 ≤ bracketLoop t tax_brackets_single 0 :=
        bracketLoop_nonneg bracketChain_single t
      have hSle : bracketLoop t tax_brackets_single 0 ≤ (10/100) * t := by
        have hmin : min t 11000 = t := min_eq_left (by linarith)
        rw [hmin] at hkey
        linarith
      rw [round2_of_small hS0 (by linarith)]
      linarith
    · have hmin1 : (1:ℚ)/20 ≤ min t 11000 := le_min (by linarith) (by norm_num)
      have hmin2 : min t 11000 ≤ t := min_le_left _ _
      have h3 := round2_le (bracketLoop t tax_brackets_single 0)
      linarith

/-! ### Helper lemmas: validation -/

lemma floatOf_ok {v : Option MoneyVal} (h : MoneyFieldOK v) : ∃ q, floatOf v = some q := by
  match v with
  | none => exact ⟨0, rfl⟩
  | some (.num q) => exact ⟨q, rfl⟩
  | some .nonnum => exact (h : False).elim

lemma validateMoneyField_eq_self {v : Option MoneyVal} (h : MoneyFieldOK v) :
    validateMoneyField v = v := by
  match v with
  | none => rfl
  | some (.num q) =>
    obtain ⟨h1, h2⟩ := (h : 0 ≤ q ∧ q ≤ 50000000)
    simp [validateMoneyField, not_lt.mpr h1, not_lt.mpr h2]
  | some .nonnum => exact (h : False).elim

/-! ### Claim theorems -/

/-- C1.  The claim states that any monetary field above $50,000,000 makes
`calculate_taxes` fail with an `UnreasonableInput` error result.  The code
does not: the `raise` inside `validate_tax_data`'s `try` block is caught by
the same block's `except (ValueError, TypeError)` clause, which zeroes the
field, so `calculate_taxes` on `wages = 60000000` returns a successful
result with no `error` key, total income 0, and the caller's wages zeroed. -/
theorem over50M_field_zeroed_not_rejected :
    (calculate_taxes wages60M).1.error = none ∧
    (calculate_taxes wages60M).1.calculation_success = true ∧
    (calculate_taxes wages60M).1.total_income = 0 ∧
    (calculate_taxes wages60M).2.wages = some (.num 0) := by
  refine ⟨?_, ?_, ?_, ?_⟩ <;> with_unfolding_all rfl

/-- C2.  The claim states that taxable income above $100,000,000 fails with
`UnreasonableInput`, surfaced through the `error` field, never silently
converted into a successful result with `federal_tax = 0`.  The code does
exactly that silent conversion: `calculate_federal_tax`'s `raise` is caught
by its own `except Exception: return 0.0`, so three $50M incomes
(taxable income $149,985,400) produce a successful result with zero tax. -/
theorem over100M_taxable_silently_zero :
    (calculate_taxes income150M).1.error = none ∧
    (calculate_taxes income150M).1.calculation_success = true ∧
    (calculate_taxes income150M).1.taxable_income = 149985400 ∧
    (calculate_taxes income150M).1.federal_tax = 0 := by
  refine ⟨?_, ?_, ?_, ?_⟩ <;> with_unfolding_all rfl

/-- C4 counterexample.  The claim states `calculate_taxes` never modifies the
passed-in tax data.  On wages `-5` the validation loop writes 0 back into the
caller's dictionary, so the final dictionary differs from the input. -/
theorem calculate_taxes_mutates_input :
    (calculate_taxes negWages).2 ≠ negWages ∧
    (calculate_taxes negWages).2.wages = some (.num 0) := by
  constructor
  · intro h
    have hw : (calculate_taxes negWages).2.wages = some (.num 0) := by
      with_unfolding_all rfl
    rw [h] at hw
    have hw2 : negWages.wages = some (.num (-5)) := rfl
    rw [hw2] at hw
    simp only [Option.some.injEq, MoneyVal.num.injEq] at hw
    norm_num at hw
  · with_unfolding_all rfl

/-- C4 amended.  `calculate_taxes` leaves the caller's dictionary unchanged
whenever every present monetary field already holds a number in
`[0, 50000000]` and the (lowercased, defaulted) filing status is a key of
the standard-deduction table; otherwise `validate_tax_data` normalises the
offending entries in place. -/
theorem calculate_taxes_preserves_valid_input (d : TaxData)
    (hw : MoneyFieldOK d.wages) (hi : MoneyFieldOK d.interest_income)
    (ho : MoneyFieldOK d.other_income) (hf : MoneyFieldOK d.federal_withholding)
    (hs : (sdLookup (pyLower (d.filing_status.getD "single"))).isSome) :
    (calculate_taxes d).2 = d := by
  by_cases he : d.isEmptyDict = true
  · simp [calculate_taxes, validate_tax_data, he]
  · have h1 := validateMoneyField_eq_self hw
    have h2 := validateMoneyField_eq_self hi
    have h3 := validateMoneyField_eq_self ho
    have h4 := validateMoneyField_eq_self hf
    have hval : validate_tax_data d = .ok d := by
      unfold validate_tax_data
      rw [if_neg he]
      simp only [h1, h2, h3, h4]
      rw [if_pos hs]
    obtain ⟨qw, hqw⟩ := floatOf_ok hw
    obtain ⟨qi, hqi⟩ := floatOf_ok hi
    obtain ⟨qo, hqo⟩ := floatOf_ok ho
    obtain ⟨qf, hqf⟩ := floatOf_ok hf
    unfold calculate_taxes
    rw [hval]
    simp only [hqw, hqi, hqo, hqf]

/-- C4 witness: a fully valid input is preserved. -/
theorem calculate_taxes_preserves_valid_input_witness :
    (calculate_taxes validTaxInput).2 = validTaxInput :=
  calculate_taxes_preserves_valid_input validTaxInput
    ⟨by norm_num, by norm_num⟩ trivial trivial ⟨by norm_num, by norm_num⟩ rfl

/-- C7.  For taxable income 50000 (single), the bracket computation returns
exactly 6307.50 = 11000×10% + (44725−11000)×12% + (50000−44725)×22%. -/
theorem federal_tax_at_50000 :
    calculate_federal_tax 50000 =
      11000 * (10/100) + (44725 - 11000) * (12/100) + (50000 - 44725) * (22/100) ∧
    calculate_federal_tax 50000 = 6307.50 := by
  constructor <;> with_unfolding_all rfl

/-- C8.  The federal tax function is non-decreasing on taxable incomes in
`[0, 100000000]`, and at each finite bracket boundary its value is the sum of
each full lower band times that band's marginal rate. -/
theorem federal_tax_monotone_and_boundary_values :
    (∀ a b : ℚ, 0 ≤ a → a ≤ b → b ≤ 100000000 →
      calculate_federal_tax a ≤ calculate_federal_tax b) ∧
    calculate_federal_tax 11000 = 11000 * (10/100) ∧
    calculate_federal_tax 44725 = 11000 * (10/100) + (44725 - 11000) * (12/100) ∧
    calculate_federal_tax 95375 =
      11000 * (10/100) + (44725 - 11000) * (12/100) + (95375 - 44725) * (22/100) ∧
    calculate_federal_tax 182050 =
      11000 * (10/100) + (44725 - 11000) * (12/100) + (95375 - 44725) * (22/100) +
      (182050 - 95375) * (24/100) ∧
    calculate_federal_tax 231250 =
      11000 * (10/100) + (44725 - 11000) * (12/100) + (95375 - 44725) * (22/100) +
      (182050 - 95375) * (24/100) + (231250 - 182050) * (32/100) ∧
    calculate_federal_tax 578125 =
      11000 * (10/100) + (44725 - 11000) * (12/100) + (95375 - 44725) * (22/100) +
      (182050 - 95375) * (24/100) + (231250 - 182050) * (32/100) +
      (578125 - 231250) * (35/100) := by
  refine ⟨fun a b _ hab hb => calculate_federal_tax_mono hab hb, ?_, ?_, ?_, ?_, ?_, ?_⟩ <;>
    with_unfolding_all rfl

/-- C8 witness: monotonicity applied at 30000 ≤ 50000. -/
theorem federal_tax_monotone_witness :
    calculate_federal_tax 30000 ≤ calculate_federal_tax 50000 :=
  federal_tax_monotone_and_boundary_values.1 30000 50000
    (by norm_num) (by norm_num) (by norm_num)

/-- C10.  On `[0, 100000000]` the computed federal tax is non-negative and at
most the top marginal rate applied to the whole taxable income. -/
theorem federal_tax_nonneg_and_bounded (t : ℚ) (h0 : 0 ≤ t) (h8 : t ≤ 100000000) :
    0 ≤ calculate_federal_tax t ∧ calculate_federal_tax t ≤ (37/100) * t :=
  ⟨calculate_federal_tax_nonneg t, calculate_federal_tax_le t h0 h8⟩

/-- C10 witness: the bounds at taxable income 50000. -/
theorem federal_tax_bounds_witness :
    0 ≤ calculate_federal_tax 50000 ∧ calculate_federal_tax 50000 ≤ (37/100) * 50000 :=
  federal_tax_nonneg_and_bounded 50000 (by norm_num) (by norm_num)

/-! ### Helper lemmas: the combiner -/

lemma isPrimaryCandidate_iff (base r : Rec) :
    isPrimaryCandidate base r = true ↔ LongerThanFirst base r := by
  simp [isPrimaryCandidate, LongerThanFirst, Bool.and_eq_true, bne_iff_ne, decide_eq_true_eq]

lemma find?_first_match {α : Type} (p : α → Bool) (pre : List α) (x : α) (post : List α)
    (hx : p x = true) (hpre : ∀ r ∈ pre, p r = false) :
    (pre ++ x :: post).find? p = some x := by
  induction pre with
  | nil => exact List.find?_cons_of_pos _ hx
  | cons a as ih =>
    have ha : p a = false := hpre a (List.mem_cons_self a as)
    rw [List.cons_append, List.find?_cons_of_neg _ (by simp [ha])]
    exact ih (fun r hr => hpre r (List.mem_cons_of_mem a hr))

lemma le_foldl_max (x : ℚ) (xs : List ℚ) : x ≤ xs.foldl max x := by
  induction xs generalizing x with
  | nil => exact le_refl x
  | cons a as ih => exact le_trans (le_max_left x a) (ih (max x a))

lemma foldl_max_of_mem {a : ℚ} {xs : List ℚ} (h : a ∈ xs) (x : ℚ) : a ≤ xs.foldl max x := by
  induction xs generalizing x with
  | nil => cases h
  | cons b bs ih =>
    rcases List.mem_cons.mp h with rfl | h2
    · exact le_trans (le_max_right x a) (le_foldl_max _ _)
    · exact ih h2 _

lemma foldl_max_mem (x : ℚ) (xs : List ℚ) : xs.foldl max x = x ∨ xs.foldl max x ∈ xs := by
  induction xs generalizing x with
  | nil => exact Or.inl rfl
  | cons a as ih =>
    rcases ih (max x a) with h | h
    · rcases le_total x a with hle | hle
      · right
        rw [List.foldl_cons, h, max_eq_right hle]
        exact List.mem_cons_self a as
      · left
        rw [List.foldl_cons, h, max_eq_left hle]
    · right
      exact List.mem_cons_of_mem a h

lemma combine_cc (r0 r1 : Rec) (rest : List Rec) :
    (combine_multiple_tax_documents (r0 :: r1 :: rest)).map
      (fun r => r.classification_confidence) =
      .ok (some (maxConf (fun r => r.classification_confidence) (r0 :: r1 :: rest))) := by
  rcases hfind : (r0 :: r1 :: rest).find? (isPrimaryCandidate r0) with _ | p <;>
    simp only [combine_multiple_tax_documents, hfind] <;> rfl

lemma combine_ec (r0 r1 : Rec) (rest : List Rec) :
    (combine_multiple_tax_documents (r0 :: r1 :: rest)).map
      (fun r => r.extraction_confidence) =
      .ok (some (maxConf (fun r => r.extraction_confidence) (r0 :: r1 :: rest))) := by
  rcases hfind : (r0 :: r1 :: rest).find? (isPrimaryCandidate r0) with _ | p <;>
    simp only [combine_multiple_tax_documents, hfind] <;> rfl

lemma maxConf_spec (f : Rec → Option ℚ) (r0 r1 : Rec) (rest : List Rec) :
    (∀ r ∈ r0 :: r1 :: rest, (f r).getD 0 ≤ maxConf f (r0 :: r1 :: rest)) ∧
    maxConf f (r0 :: r1 :: rest) ∈ (r0 :: r1 :: rest).map (fun r => (f r).getD 0) := by
  have hM : maxConf f (r0 :: r1 :: rest) =
      ((r1 :: rest).map (fun r => (f r).getD 0)).foldl max ((f r0).getD 0) := by
    simp [maxConf]
  constructor
  · intro r hr
    rcases List.mem_cons.mp hr with rfl | h2
    · rw [hM]
      exact le_foldl_max _ _
    · rw [hM]
      exact foldl_max_of_mem (List.mem_map_of_mem _ h2) _
  · rw [List.map_cons]
    rcases foldl_max_mem ((f r0).getD 0) ((r1 :: rest).map (fun r => (f r).getD 0)) with h | h
    · rw [hM, h]
      exact List.mem_cons_self _ _
    · rw [hM]
      exact List.mem_cons_of_mem _ h

lemma maxConf_all_none (f : Rec → Option ℚ) (r0 r1 : Rec) (rest : List Rec)
    (h : ∀ r ∈ r0 :: r1 :: rest, f r = none) : maxConf f (r0 :: r1 :: rest) = 0 := by
  obtain ⟨-, hmem⟩ := maxConf_spec f r0 r1 rest
  rw [List.mem_map] at hmem
  obtain ⟨r, hr, he⟩ := hmem
  rw [← he, h r hr]
  rfl

/-- C3 counterexample.  In the batch with stripped name lengths 1, 2, 3, the
identity fields come from the second record (`"bb"`, ssn `"sb"`), not from
the record with the overall-longest name (`"ccc"`, ssn `"sc"`), because the
selection loop breaks at the first record whose name is longer than the
first record's. -/
theorem identity_fields_not_from_longest_name :
    (combine_multiple_tax_documents [recNameA, recNameBB, recNameCCC]).map identityFields =
      .ok (some "bb", some "sb", some "", some "", some "", some "", some "single") ∧
    (∀ r ∈ [recNameA, recNameBB, recNameCCC],
      (pyStrip (r.taxpayer_name.getD "")).length ≤
        (pyStrip (recNameCCC.taxpayer_name.getD "")).length) ∧
    recNameCCC.ssn = some "sc" ∧ (some "sb" : Option String) ≠ some "sc" := by
  refine ⟨by with_unfolding_all rfl, by decide, rfl, by decide⟩

/-- C3 amended.  For two or more records, the combined identity fields are
taken en bloc from the first record whose trimmed, truthy `taxpayer_name` is
strictly longer than the **first** record's trimmed name (with `""`/`"single"`
defaults for its missing keys); if no record's name is longer than the first
record's, the identity fields stay those of the first record. -/
theorem identity_fields_from_first_longer_than_first (r0 r1 : Rec) (rest : List Rec) :
    ((∀ r ∈ r0 :: r1 :: rest, ¬ LongerThanFirst r0 r) →
      (combine_multiple_tax_documents (r0 :: r1 :: rest)).map identityFields =
        .ok (identityFields r0)) ∧
    (∀ pre p post, r0 :: r1 :: rest = pre ++ p :: post → LongerThanFirst r0 p →
      (∀ r ∈ pre, ¬ LongerThanFirst r0 r) →
      (combine_multiple_tax_documents (r0 :: r1 :: rest)).map identityFields =
        .ok (some (p.taxpayer_name.getD ""), some (p.ssn.getD ""), some (p.address.getD ""),
             some (p.city.getD ""), some (p.state.getD ""), some (p.zip_code.getD ""),
             some (p.filing_status.getD "single"))) := by
  constructor
  · intro hall
    have hnone : (r0 :: r1 :: rest).find? (isPrimaryCandidate r0) = none := by
      rw [List.find?_eq_none]
      intro x hx hb
      exact hall x hx ((isPrimaryCandidate_iff r0 x).mp hb)
    simp only [combine_multiple_tax_documents, hnone]
    rfl
  · intro pre p post heq hp hpre
    have hsome : (r0 :: r1 :: rest).find? (isPrimaryCandidate r0) = some p := by
      rw [heq]
      refine find?_first_match _ pre p post ((isPrimaryCandidate_iff r0 p).mpr hp) ?_
      intro r hr
      have hnt : ¬ (isPrimaryCandidate r0 r = true) :=
        fun hb => hpre r hr ((isPrimaryCandidate_iff r0 r).mp hb)
      exact Bool.not_eq_true _ ▸ hnt
    simp only [combine_multiple_tax_documents, hsome]
    rfl

/-- C3 witness: in the concrete batch, the second record is the first one
longer than the first record, and its fields are taken. -/
theorem identity_fields_selection_witness :
    (combine_multiple_tax_documents [recNameA, recNameBB, recNameCCC]).map identityFields =
      .ok (some "bb", some "sb", some "", some "", some "", some "", some "single") :=
  (identity_fields_from_first_longer_than_first recNameA recNameBB [recNameCCC]).2
    [recNameA] recNameBB [recNameCCC] rfl (by decide) (by decide)

/-- C5 counterexample.  Combining two records neither of which reports any
confidence yields combined confidences 0, not the claimed default 0.8: the
`default=0.8` of Python's `max` applies only to an empty iterable, and
missing fields enter the generator as `data.get(field, 0) = 0`. -/
theorem combined_confidence_zero_when_unreported :
    (combine_multiple_tax_documents [blankRec, blankRec]).map
      (fun r => (r.classification_confidence, r.extraction_confidence)) =
      .ok (some 0, some 0) ∧
    (0 : ℚ) ≠ 8/10 :=
  ⟨by with_unfolding_all rfl, by norm_num⟩

/-- C5 amended.  For two or more records, each combined confidence is the
maximum over the records of the reported value with a missing value read as
0 (so it bounds every record's value and is attained by one of them); when no
record reports a value the combined confidence is 0 — the 0.8 default is
unreachable for a non-empty batch. -/
theorem combined_confidence_is_max_with_zero_default (r0 r1 : Rec) (rest : List Rec) :
    (∀ c : ℚ, (combine_multiple_tax_documents (r0 :: r1 :: rest)).map
        (fun r => r.classification_confidence) = .ok (some c) →
      (∀ r ∈ r0 :: r1 :: rest, (r.classification_confidence.getD 0) ≤ c) ∧
        c ∈ (r0 :: r1 :: rest).map (fun r => r.classification_confidence.getD 0)) ∧
    (∀ c : ℚ, (combine_multiple_tax_documents (r0 :: r1 :: rest)).map
        (fun r => r.extraction_confidence) = .ok (some c) →
      (∀ r ∈ r0 :: r1 :: rest, (r.extraction_confidence.getD 0) ≤ c) ∧
        c ∈ (r0 :: r1 :: rest).map (fun r => r.extraction_confidence.getD 0)) ∧
    ((∀ r ∈ r0 :: r1 :: rest, r.classification_confidence = none) →
      (combine_multiple_tax_documents (r0 :: r1 :: rest)).map
        (fun r => r.classification_confidence) = .ok (some 0)) ∧
    ((∀ r ∈ r0 :: r1 :: rest, r.extraction_confidence = none) →
      (combine_multiple_tax_documents (r0 :: r1 :: rest)).map
        (fun r => r.extraction_confidence) = .ok (some 0)) := by
  refine ⟨?_, ?_, ?_, ?_⟩
  · intro c hc
    rw [combine_cc] at hc
    simp only [Except.ok.injEq, Option.some.injEq] at hc
    subst hc
    exact maxConf_spec _ r0 r1 rest
  · intro c hc
    rw [combine_ec] at hc
    simp only [Except.ok.injEq, Option.some.injEq] at hc
    subst hc
    exact maxConf_spec _ r0 r1 rest
  · intro h
    rw [combine_cc, maxConf_all_none _ r0 r1 rest h]
  · intro h
    rw [combine_ec, maxConf_all_none _ r0 r1 rest h]

/-- C5 witness: two records reporting no extraction confidence combine to 0. -/
theorem combined_confidence_witness :
    (combine_multiple_tax_documents [ccOnlyRec, ccOnlyRec]).map
      (fun r => r.extraction_confidence) = .ok (some 0) :=
  (combined_confidence_is_max_with_zero_default ccOnlyRec ccOnlyRec []).2.2.2 (by decide)

lemma normalizeMoney_keeps_large {v : Option MoneyVal} {q : ℚ}
    (hv : v = some (.num q)) (hq : 10000000 < q) : normalizeMoney v = q := by
  subst hv
  simp [normalizeMoney, not_lt.mpr (by linarith : (0:ℚ) ≤ q)]

/-- C6 counterexample.  The claim states any monetary value above $10,000,000
is kept and the record flagged for review.  On a record whose eight monetary
fields all exceed $10M, with empty `validation_flags` and
`requires_review = False`, normalisation keeps every value but leaves the
flags empty and the review bit off — the condition is only logged, never
recorded on the record. -/
theorem large_value_not_flagged :
    (normalize_extracted_data bigWagesRec).wages = 20000000 ∧
    (normalize_extracted_data bigWagesRec).interest_income = 11000000 ∧
    (normalize_extracted_data bigWagesRec).dividend_income = 12000000 ∧
    (normalize_extracted_data bigWagesRec).other_income = 13000000 ∧
    (normalize_extracted_data bigWagesRec).federal_withholding = 14000000 ∧
    (normalize_extracted_data bigWagesRec).state_withholding = 15000000 ∧
    (normalize_extracted_data bigWagesRec).social_security_wages = 16000000 ∧
    (normalize_extracted_data bigWagesRec).medicare_wages = 17000000 ∧
    (normalize_extracted_data bigWagesRec).validation_flags = [] ∧
    (normalize_extracted_data bigWagesRec).requires_review = false := by
  refine ⟨?_, ?_, ?_, ?_, ?_, ?_, ?_, ?_, rfl, rfl⟩ <;> with_unfolding_all rfl

/-- C6 amended.  During normalisation, any of the eight monetary fields whose
coerced value exceeds $10,000,000 is kept unchanged, and the record is
**not** flagged: `validation_flags` and `requires_review` pass through
unchanged (with their missing-key defaults), the over-limit branch only
logging a warning. -/
theorem large_value_kept_flags_untouched (d : EXRec) :
    (normalize_extracted_data d).validation_flags = d.validation_flags.getD [] ∧
    (normalize_extracted_data d).requires_review = d.requires_review.getD false ∧
    (∀ q : ℚ, 10000000 < q →
      (d.wages = some (.num q) → (normalize_extracted_data d).wages = q) ∧
      (d.interest_income = some (.num q) →
        (normalize_extracted_data d).interest_income = q) ∧
      (d.dividend_income = some (.num q) →
        (normalize_extracted_data d).dividend_income = q) ∧
      (d.other_income = some (.num q) → (normalize_extracted_data d).other_income = q) ∧
      (d.federal_withholding = some (.num q) →
        (normalize_extracted_data d).federal_withholding = q) ∧
      (d.state_withholding = some (.num q) →
        (normalize_extracted_data d).state_withholding = q) ∧
      (d.social_security_wages = some (.num q) →
        (normalize_extracted_data d).social_security_wages = q) ∧
      (d.medicare_wages = some (.num q) →
        (normalize_extracted_data d).medicare_wages = q)) := by
  refine ⟨rfl, rfl, fun q hq => ⟨?_, ?_, ?_, ?_, ?_, ?_, ?_, ?_⟩⟩ <;>
    exact fun h => normalizeMoney_keeps_large h hq

/-- C6 witness: all eight monetary fields at $15M survive normalisation
unchanged, with default flags and review bit. -/
theorem large_value_kept_witness :
    (normalize_extracted_data allLargeRec).wages = 15000000 ∧
    (normalize_extracted_data allLargeRec).interest_income = 15000000 ∧
    (normalize_extracted_data allLargeRec).dividend_income = 15000000 ∧
    (normalize_extracted_data allLargeRec).other_income = 15000000 ∧
    (normalize_extracted_data allLargeRec).federal_withholding = 15000000 ∧
    (normalize_extracted_data allLargeRec).state_withholding = 15000000 ∧
    (normalize_extracted_data allLargeRec).social_security_wages = 15000000 ∧
    (normalize_extracted_data allLargeRec).medicare_wages = 15000000 ∧
    (normalize_extracted_data allLargeRec).validation_flags = [] ∧
    (normalize_extracted_data allLargeRec).requires_review = false := by
  have h := large_value_kept_flags_untouched allLargeRec
  have h8 := h.2.2 15000000 (by norm_num)
  exact ⟨h8.1 rfl, h8.2.1 rfl, h8.2.2.1 rfl, h8.2.2.2.1 rfl, h8.2.2.2.2.1 rfl,
    h8.2.2.2.2.2.1 rfl, h8.2.2.2.2.2.2.1 rfl, h8.2.2.2.2.2.2.2 rfl, h.1, h.2.1⟩

/-- C9.  Combining a single-record batch is the identity: the record itself
is returned, field for field. -/
theorem combine_singleton_identity (r : Rec) :
    combine_multiple_tax_documents [r] = .ok r := rfl

/-- C9 witness: the identity at a concrete record. -/
theorem combine_singleton_identity_witness :
    combine_multiple_tax_documents [soloRec] = .ok soloRec :=
  combine_singleton_identity soloRec

end AITax
